import Mathlib

/-!
Verification of the data-ingestion and context-assembly pipeline of a
command-line jinja renderer (single source module `jinja_cli/__main__.py`).

The embedding below mirrors the source module:
  * `Value` models the value trees produced by the data parsers
    (Python dicts / lists / scalars).
  * `dictSet`, `dictGet`, `updatePairs` model Python `dict` assignment,
    lookup, and `dict.update` over insertion-ordered association lists
    with unique keys (the invariant Python dicts maintain).
  * `normalize` embeds the top-level-mapping check of `load_data`
    (lines 205-211): `if not isinstance(data, collections.Mapping):
    data = {'data': data}`.  The module never imports `collections`,
    so evaluating the test raises `NameError: name 'collections' is
    not defined` on every invocation, before the branch can run; the
    embedding is the constant error this makes the code compute, and
    `normalizeIntended` carries the branch logic the spec documents.
  * `merge` embeds the command-line-defines merge of `load_data`
    (lines 213-215): `if defines is not None: data.update(defines)`.
-/

namespace JinjaCli

/-- A value tree: scalar (string / number / boolean / null), ordered
sequence, or insertion-ordered mapping from string keys. -/
inductive Value where
  | str (s : String)
  | num (n : Int)
  | bool (b : Bool)
  | null
  | seq (elems : List Value)
  | map (entries : List (String × Value))

/-- The Python `isinstance(v, Mapping)` test: true exactly on mappings. -/
def Value.isMapping : Value → Bool
  | .map _ => true
  | _ => false

/-- Errors raised by the pipeline.  `noDataFormat` and `invalidDataFormat`
mirror the two `raise Exception(...)` sites of `load_data` (the spec's
ConfigurationError); `nameError` models a Python `NameError` on an
undefined name; `dataError` and `templateError` model parser and
rendering failures of the external collaborators. -/
inductive JinjaError where
  | noDataFormat
  | invalidDataFormat (fmt : String)
  | nameError (name : String)
  | dataError (msg : String)
  | templateError (msg : String)

/-- Python `d[k] = v` on an insertion-ordered dict: an existing key keeps
its position and gets the new value; a new key is appended. -/
def dictSet {α : Type} : List (String × α) → String → α → List (String × α)
  | [], k, v => [(k, v)]
  | (k', v') :: rest, k, v =>
    if k' = k then (k', v) :: rest else (k', v') :: dictSet rest k v

/-- Python `d.get(k)` / `d[k]` lookup: first entry with the given key. -/
def dictGet {α : Type} : List (String × α) → String → Option α
  | [], _ => none
  | (k', v') :: rest, k => if k = k' then some v' else dictGet rest k

/-- Overlay lookup: the first option when it is populated, else the
second (how a key resolves against a dict overlaid on defaults). -/
def firstSome {α : Type} (o d : Option α) : Option α :=
  match o with
  | some v => some v
  | none => d

/-- Python `d.update(pairs)`: assign each (key, value) pair in order. -/
def updatePairs {α : Type} (m : List (String × α)) (ps : List (String × α)) :
    List (String × α) :=
  ps.foldl (fun acc p => dictSet acc p.1 p.2) m

/-- Lines 205-211 of `load_data`: `if not isinstance(data,
collections.Mapping): data = {'data': data}`.  The module never imports
`collections`, so evaluating the line-207 test raises
`NameError: name 'collections' is not defined` on every input, before
any branching: the committed normalizer never passes a mapping through
and never wraps a non-mapping. -/
def normalize (data : Value) : Except JinjaError Value :=
  .error (.nameError "collections")

/-- Modelled from the spec: the intended context normalization of
lines 205-211 (design section 4.3 — a mapping passes through unchanged,
any other value tree is wrapped as the one-entry mapping under the key
`data`), which the committed line 207 never reaches for want of the
`collections` import. -/
def normalizeIntended (v : Value) : Value :=
  if v.isMapping then v else Value.map [("data", v)]

/-- Lines 213-215 of `load_data`: `if defines is not None:
data.update(defines)`.  `defines` is the (possibly absent) list of
`-D key value` pairs from the command line; values stay strings. -/
def merge (base : List (String × Value))
    (defines : Option (List (String × String))) : List (String × Value) :=
  match defines with
  | none => base
  | some ds => updatePairs base (ds.map (fun p => (p.1, Value.str p.2)))

/-- Python `str.endswith`: exact, case-sensitive suffix test. -/
def endswith (s suffix : String) : Bool :=
  suffix.data.isSuffixOf s.data

/-- Python `str.startswith`: exact, case-sensitive leading-text test. -/
def startswith (s p : String) : Bool :=
  p.data.isPrefixOf s.data

/-- Python `s.partition(sep)[-1]`: everything after the first occurrence
of `sep`, or the empty string when `sep` does not occur. -/
def afterFirstSep (sep : Char) : List Char → List Char
  | [] => []
  | c :: rest => if c = sep then rest else afterFirstSep sep rest

/-- The format identifiers the dispatch chain of `load_data` can select:
one per primary format, plus the parameterized tabular variant carrying
a dialect name (the source represents these as the strings
`ini`, `json`, `xml`, `yaml`, `tsv`, `csv`, `csv.<dialect>`). -/
inductive Fmt where
  | ini
  | json
  | xml
  | yaml
  | dsv (dialect : String)
deriving DecidableEq

/-- Lines 163-177 of `load_data`: suffix-based format detection when no
explicit format was given.  A fixed, ordered chain of exact
(case-sensitive) `endswith` tests, first match wins; no match raises
`Exception('no data format;')`. -/
def detectFmt (fname : String) : Except JinjaError String :=
  if endswith fname ".ini" then .ok "ini"
  else if endswith fname ".json" then .ok "json"
  else if endswith fname ".xml" then .ok "xml"
  else if endswith fname ".yaml" then .ok "yaml"
  else if endswith fname ".tsv" then .ok "tsv"
  else if endswith fname ".csv" then .ok "csv"
  else .error .noDataFormat

/-- Lines 180-197 of `load_data`: the dispatch chain on the format
string.  The six primary names select their parser; a `csv.`-led
string selects the tabular loader with the dialect written after the
first dot (`fmt.partition('.')[-1]`); anything else raises
`Exception('invalid data format: ...;')`. -/
def dispatchFmt (fmt : String) : Except JinjaError Fmt :=
  if fmt = "ini" then .ok .ini
  else if fmt = "json" then .ok .json
  else if fmt = "xml" then .ok .xml
  else if fmt = "yaml" then .ok .yaml
  else if fmt = "tsv" then .ok (.dsv "tsv")
  else if fmt = "csv" then .ok (.dsv "csv")
  else if startswith fmt "csv." then .ok (.dsv ⟨afterFirstSep '.' fmt.data⟩)
  else .error (.invalidDataFormat fmt)

/-- Format resolution as performed inside `load_data` for a present data
file: an explicit format string goes straight to the dispatch chain;
with no explicit format the file-name suffix is inspected first
(lines 163-197). -/
def resolveFmt (fmt : Option String) (fname : String) : Except JinjaError Fmt :=
  match fmt with
  | some f => dispatchFmt f
  | none =>
    match detectFmt fname with
    | .ok f => dispatchFmt f
    | .error e => .error e

/-- Lines 103-129, `load_data_dsv`: the tabular loader.  Its body is
unexecutable as committed: the module never imports `csv`, so the very
first evaluated expression `csv.QUOTE_NONE` raises
`NameError: name 'csv' is not defined` before the stream is read (and
even with the import, the body references `dialect_args` and
`dialect_options`, neither of which is defined anywhere — only
`default_dialect_args` exists).  The function therefore fails on every
input, regardless of dialect or header handling. -/
def load_data_dsv (fin : String) (dialect : String := "excel")
    (has_headers : Bool := true) : Except JinjaError Value :=
  .error (.nameError "csv")

/-- Lines 180-197 of `load_data`: invoke the parser selected by the
dispatch chain.  The four non-tabular loaders wrap external libraries
(`configparser`, `json`, `xmltodict`, `yaml`) and are abstracted as the
`parseExt` collaborator; the tabular path calls the in-module
`load_data_dsv` (headers on, as in the source, which never passes
`has_headers`). -/
def dispatchLoad (parseExt : Fmt → String → Except JinjaError Value)
    (f : Fmt) (content : String) : Except JinjaError Value :=
  match f with
  | .dsv d => load_data_dsv content d true
  | other => parseExt other content

/-- Lines 199-215 of `load_data`: the tail of the pipeline applied to
the loaded value (or to the initial `data = {}` when no file was
named).  Its first statement is the line-207 isinstance test, so every
invocation raises the `collections` NameError there; the
normalize-and-merge logic it guards (see `normalizeIntended` and
`merge`) is dead code as committed. -/
def finishLoad (data : Value) (defines : Option (List (String × String))) :
    Except JinjaError Value :=
  .error (.nameError "collections")

/-- Lines 134-217, `load_data fname fmt defines`: when a data file is
named, open it (the sentinel `-` reads standard input — both are folded
into the `readSrc` collaborator), resolve the format, parse, then run
the tail; when no data file is named, the format argument is never
consulted and the pipeline proceeds from `data = {}` straight into the
tail.  Resolution and parse errors (lines 163-197) are raised before
line 207 and propagate as such; every path that gets past them hits the
tail's `collections` NameError. -/
def load_data (parseExt : Fmt → String → Except JinjaError Value)
    (readSrc : String → String) (fname fmt : Option String)
    (defines : Option (List (String × String))) : Except JinjaError Value :=
  match fname with
  | none => finishLoad (Value.map []) defines
  | some name =>
    match resolveFmt fmt name with
    | .error e => .error e
    | .ok f =>
      match dispatchLoad parseExt f (readSrc name) with
      | .error e => .error e
      | .ok data => finishLoad data defines

/-- The state of a parsed `configparser.ConfigParser` after
`cp.read_file(fin)`: the defaults from the unnamed `[DEFAULT]` section,
and the named sections with their own keys (section names and a
section's own keys are unique — duplicates raise in `configparser`). -/
structure IniData where
  defaults : List (String × String)
  sections : List (String × List (String × String))

/-- Lines 28-46, `load_data_ini`: the comprehension
`{ s: dict(cp.defaults(), **cp[s]) for s in cp.sections() }`.  A section
proxy `cp[s]` exposes the section's own keys overlaid on the defaults,
so `dict(cp.defaults(), **cp[s])` is the defaults dict updated with the
section's own entries. -/
def load_data_ini (cp : IniData) : List (String × List (String × String)) :=
  cp.sections.map (fun p => (p.1, updatePairs cp.defaults p.2))

/-- Modelled from the spec: split a character list at every separator
occurrence (the line structure a tabular reader sees; inputs without a
trailing newline, as in the documented example). -/
def splitOn (sep : Char) : List Char → List (List Char)
  | [] => [[]]
  | c :: rest =>
    if c = sep then [] :: splitOn sep rest
    else
      match splitOn sep rest with
      | [] => [[c]]
      | f :: fs => (c :: f) :: fs

/-- Modelled from the spec: split one row into fields at the delimiter,
with no quoting and backslash escaping the following character (the
intended dialect registration of `load_data_dsv`, whose committed body
is unexecutable). -/
def splitEsc (delim : Char) : List Char → List (List Char)
  | [] => [[]]
  | c :: rest =>
    if c = '\\' then
      match rest with
      | [] => [[]]
      | d :: rest2 =>
        match splitEsc delim rest2 with
        | [] => [[d]]
        | f :: fs => (d :: f) :: fs
    else if c = delim then [] :: splitEsc delim rest
    else
      match splitEsc delim rest with
      | [] => [[c]]
      | f :: fs => (c :: f) :: fs

/-- Modelled from the spec: the rows a tabular reader yields — lines
split at newlines, each line split into string fields. -/
def dsvRowsSpec (delim : Char) (input : String) : List (List String) :=
  (splitOn '\n' input.data).map (fun line => (splitEsc delim line).map String.mk)

/-- Modelled from the spec: pair header field names with one row's
values, as `csv.DictReader` does for rows of matching width. -/
def zipHeader : List String → List String → List (String × Value)
  | h :: hs, v :: vs => (h, Value.str v) :: zipHeader hs vs
  | _, _ => []

/-- Modelled from the spec: the intended behavior of `load_data_dsv`
(whose committed body is unexecutable — see `load_data_dsv`): with
header interpretation on, the first row supplies field names and each
later row becomes a mapping from field name to string value; with it
off, each row becomes a sequence of string values. -/
def dsvParseSpec (delim : Char) (has_headers : Bool) (input : String) : Value :=
  let rows := dsvRowsSpec delim input
  if has_headers then
    match rows with
    | [] => Value.seq []
    | hdr :: rest => Value.seq (rest.map (fun r => Value.map (zipHeader hdr r)))
  else
    Value.seq (rows.map (fun r => Value.seq (r.map Value.str)))

/-- The template source handed to the rendering engine, lines 295-303 of
`main`: with the positional template argument absent or the sentinel
`-`, the template text is the whole of standard input (a `DictLoader`
holding what `sys.stdin.read()` returned); otherwise the named file,
resolved by the engine's file-system loader relative to its directory. -/
inductive TemplateSource where
  | stdinText (content : String)
  | file (path : String)
deriving DecidableEq

/-- Lines 295-303 of `main`: `if args.template is None or
args.template == '-':` read the template wholly from standard input,
else load the named file. -/
def loadTemplate : Option String → String → TemplateSource
  | none, stdin => .stdinText stdin
  | some t, stdin => if t = "-" then .stdinText stdin else .file t

/-- Lines 287-325, `main`: load the template, load the data, render,
and only then write.  The result records the complete strings written
to the output destination, in order, alongside the terminal error if
any: the source renders into the local `rendered` before the output
stream is even opened, and performs a single `fout.write(rendered)`. -/
def main (render : TemplateSource → Value → Except JinjaError String)
    (parseExt : Fmt → String → Except JinjaError Value)
    (readSrc : String → String) (stdin : String)
    (templateArg dataArg fmtArg : Option String)
    (defines : Option (List (String × String))) :
    List String × Option JinjaError :=
  match load_data parseExt readSrc dataArg fmtArg defines with
  | .error e => ([], some e)
  | .ok data =>
    match render (loadTemplate templateArg stdin) data with
    | .error e => ([], some e)
    | .ok rendered => ([rendered], none)

lemma dictGet_dictSet {α : Type} (m : List (String × α)) (k : String) (v : α)
    (x : String) :
    dictGet (dictSet m k v) x = if x = k then some v else dictGet m x := by
  induction m with
  | nil =>
    by_cases h : x = k <;> simp [dictSet, dictGet, h]
  | cons a rest ih =>
    obtain ⟨k', v'⟩ := a
    by_cases hkk : k' = k
    · subst hkk
      by_cases hx : x = k' <;> simp [dictSet, dictGet, hx]
    · by_cases hx : x = k'
      · subst hx
        simp [dictSet, dictGet, hkk]
      · simp [dictSet, dictGet, hkk, hx, ih]

lemma dictSet_dictSet {α : Type} (m : List (String × α)) (k : String)
    (v w : α) : dictSet (dictSet m k v) k w = dictSet m k w := by
  induction m with
  | nil => simp [dictSet]
  | cons a rest ih =>
    obtain ⟨k', v'⟩ := a
    by_cases hkk : k' = k <;> simp [dictSet, hkk, ih]

lemma endswith_append (s q : String) : endswith (s ++ q) q = true := by
  have hdata : (s ++ q).data = s.data ++ q.data := rfl
  simp only [endswith, hdata, List.isSuffixOf_iff_suffix]
  exact List.suffix_append s.data q.data

lemma endswith_append_of_indep (s p q : String)
    (h1 : p.data.isSuffixOf q.data = false)
    (h2 : q.data.isSuffixOf p.data = false) :
    endswith (s ++ q) p = false := by
  have hdata : (s ++ q).data = s.data ++ q.data := rfl
  simp only [endswith, hdata]
  rw [Bool.eq_false_iff]
  intro hsuf
  have hp : p.data <:+ s.data ++ q.data := by
    simpa [List.isSuffixOf_iff_suffix] using hsuf
  have hq : q.data <:+ s.data ++ q.data := List.suffix_append s.data q.data
  rcases List.suffix_or_suffix_of_suffix hp hq with h | h
  · rw [← List.isSuffixOf_iff_suffix] at h
    exact absurd h (by simp [h1])
  · rw [← List.isSuffixOf_iff_suffix] at h
    exact absurd h (by simp [h2])

lemma resolveFmt_ini (name : String) :
    resolveFmt none (name ++ ".ini") = .ok Fmt.ini := by
  have h1 := endswith_append name ".ini"
  simp [resolveFmt, detectFmt, dispatchFmt, h1]

lemma resolveFmt_json (name : String) :
    resolveFmt none (name ++ ".json") = .ok Fmt.json := by
  have h1 := endswith_append_of_indep name ".ini" ".json" (by decide) (by decide)
  have h2 := endswith_append name ".json"
  simp [resolveFmt, detectFmt, dispatchFmt, h1, h2]

lemma resolveFmt_xml (name : String) :
    resolveFmt none (name ++ ".xml") = .ok Fmt.xml := by
  have h1 := endswith_append_of_indep name ".ini" ".xml" (by decide) (by decide)
  have h2 := endswith_append_of_indep name ".json" ".xml" (by decide) (by decide)
  have h3 := endswith_append name ".xml"
  simp [resolveFmt, detectFmt, dispatchFmt, h1, h2, h3]

lemma resolveFmt_yaml (name : String) :
    resolveFmt none (name ++ ".yaml") = .ok Fmt.yaml := by
  have h1 := endswith_append_of_indep name ".ini" ".yaml" (by decide) (by decide)
  have h2 := endswith_append_of_indep name ".json" ".yaml" (by decide) (by decide)
  have h3 := endswith_append_of_indep name ".xml" ".yaml" (by decide) (by decide)
  have h4 := endswith_append name ".yaml"
  simp [resolveFmt, detectFmt, dispatchFmt, h1, h2, h3, h4]

lemma resolveFmt_tsv (name : String) :
    resolveFmt none (name ++ ".tsv") = .ok (Fmt.dsv "tsv") := by
  have h1 := endswith_append_of_indep name ".ini" ".tsv" (by decide) (by decide)
  have h2 := endswith_append_of_indep name ".json" ".tsv" (by decide) (by decide)
  have h3 := endswith_append_of_indep name ".xml" ".tsv" (by decide) (by decide)
  have h4 := endswith_append_of_indep name ".yaml" ".tsv" (by decide) (by decide)
  have h5 := endswith_append name ".tsv"
  simp [resolveFmt, detectFmt, dispatchFmt, h1, h2, h3, h4, h5]

lemma resolveFmt_csv (name : String) :
    resolveFmt none (name ++ ".csv") = .ok (Fmt.dsv "csv") := by
  have h1 := endswith_append_of_indep name ".ini" ".csv" (by decide) (by decide)
  have h2 := endswith_append_of_indep name ".json" ".csv" (by decide) (by decide)
  have h3 := endswith_append_of_indep name ".xml" ".csv" (by decide) (by decide)
  have h4 := endswith_append_of_indep name ".yaml" ".csv" (by decide) (by decide)
  have h5 := endswith_append_of_indep name ".tsv" ".csv" (by decide) (by decide)
  have h6 := endswith_append name ".csv"
  simp [resolveFmt, detectFmt, dispatchFmt, h1, h2, h3, h4, h5, h6]

/-- Claim C4: with no explicit format, a file name ending in each of the
six supported suffixes resolves (via the fixed, ordered, exact
case-sensitive suffix table, first match winning) to the documented
format identifier — the tabular suffixes to the tabular variant with
the matching dialect — and a file name matching none of the six
suffixes fails with the no-data-format configuration error. -/
theorem resolveFmt_suffix_spec :
    (∀ name : String, resolveFmt none (name ++ ".ini") = .ok Fmt.ini) ∧
    (∀ name : String, resolveFmt none (name ++ ".json") = .ok Fmt.json) ∧
    (∀ name : String, resolveFmt none (name ++ ".xml") = .ok Fmt.xml) ∧
    (∀ name : String, resolveFmt none (name ++ ".yaml") = .ok Fmt.yaml) ∧
    (∀ name : String, resolveFmt none (name ++ ".tsv") = .ok (Fmt.dsv "tsv")) ∧
    (∀ name : String, resolveFmt none (name ++ ".csv") = .ok (Fmt.dsv "csv")) ∧
    (∀ fname : String,
       endswith fname ".ini" = false → endswith fname ".json" = false →
       endswith fname ".xml" = false → endswith fname ".yaml" = false →
       endswith fname ".tsv" = false → endswith fname ".csv" = false →
       resolveFmt none fname = .error JinjaError.noDataFormat) := by
  refine ⟨resolveFmt_ini, resolveFmt_json, resolveFmt_xml, resolveFmt_yaml,
    resolveFmt_tsv, resolveFmt_csv, ?_⟩
  intro fname h1 h2 h3 h4 h5 h6
  simp [resolveFmt, detectFmt, h1, h2, h3, h4, h5, h6]

/-- Witness for C4 at concrete file names: `data.json` resolves to the
json identifier and `notes.txt` fails with the configuration error. -/
theorem resolveFmt_suffix_spec_witness :
    resolveFmt none ("data" ++ ".json") = .ok Fmt.json ∧
    resolveFmt none "notes.txt" = .error JinjaError.noDataFormat :=
  ⟨resolveFmt_suffix_spec.2.1 "data",
   resolveFmt_suffix_spec.2.2.2.2.2.2 "notes.txt" (by decide) (by decide)
     (by decide) (by decide) (by decide) (by decide)⟩

/-- Counterexample for C5: with no data source named at all and the
format `frobnicate` nonetheless requested, `load_data` never reaches
format resolution — the whole resolution block is guarded by
`if fname is not None` (line 152) — and the invocation fails at the
line-207 `collections` NameError instead of the no-data-format
configuration error the claim requires. -/
theorem load_data_no_source_counterexample :
    load_data (fun _ _ => .error (.dataError "unused")) (fun _ => "")
        none (some "frobnicate") none =
      .error (JinjaError.nameError "collections") ∧
    load_data (fun _ _ => .error (.dataError "unused")) (fun _ => "")
        none (some "frobnicate") none ≠ .error JinjaError.noDataFormat := by
  refine ⟨rfl, fun h => ?_⟩
  injection h with h'
  exact JinjaError.noConfusion h'

/-- Claim C5 as amended: when no data source is given, any requested
data format is ignored — format resolution is never attempted and no
configuration error is raised; the invocation fails all the same, with
the line-207 NameError on the unimported `collections` module that
every `load_data` call runs into. -/
theorem load_data_no_source (parseExt : Fmt → String → Except JinjaError Value)
    (readSrc : String → String) (fmt : Option String)
    (defines : Option (List (String × String))) :
    load_data parseExt readSrc none fmt defines =
      .error (JinjaError.nameError "collections") := rfl

/-- Claim C6: an explicit format string that is none of the six
recognized identifiers and does not carry the parameterized tabular
`csv.` lead-in fails resolution with the invalid-data-format
configuration error, whatever the file name and suffix. -/
theorem resolveFmt_invalid_explicit (f fname : String)
    (h1 : f ≠ "ini") (h2 : f ≠ "json") (h3 : f ≠ "xml") (h4 : f ≠ "yaml")
    (h5 : f ≠ "tsv") (h6 : f ≠ "csv") (h7 : startswith f "csv." = false) :
    resolveFmt (some f) fname = .error (JinjaError.invalidDataFormat f) := by
  simp [resolveFmt, dispatchFmt, h1, h2, h3, h4, h5, h6, h7]

/-- Witness for C6: the explicit format `frobnicate` fails resolution
even though the file name carries a recognized `.json` suffix. -/
theorem resolveFmt_invalid_explicit_witness :
    resolveFmt (some "frobnicate") "data.json" =
      .error (JinjaError.invalidDataFormat "frobnicate") :=
  resolveFmt_invalid_explicit "frobnicate" "data.json" (by decide) (by decide)
    (by decide) (by decide) (by decide) (by decide) (by decide)

/-- Claim C1, against the committed code: the normalizer neither passes
mappings through nor wraps non-mappings — line 207 raises the NameError
on the unimported `collections` module for a mapping, for the empty
sequence, and for null alike, before the branch can run (see
`normalizeIntended_map` and `normalizeIntended_wrap` for the intended
behavior the claim describes). -/
theorem normalize_crashes :
    normalize (Value.map [("k", Value.null)]) =
      .error (JinjaError.nameError "collections") ∧
    normalize (Value.seq []) = .error (JinjaError.nameError "collections") ∧
    normalize Value.null = .error (JinjaError.nameError "collections") :=
  ⟨rfl, rfl, rfl⟩

/-- Claim C2, against the committed code: far from being total with no
failure modes, normalization fails on every value tree input with the
NameError on the unimported `collections` module; no input ever reaches
the wrapping logic (see `normalizeIntended_total` for the totality the
claim describes, which holds of the intended branch). -/
theorem normalize_never_total (v : Value) :
    normalize v = .error (JinjaError.nameError "collections") := rfl

/-- The intended normalizer (spec model): a mapping passes through
unchanged. -/
theorem normalizeIntended_map (entries : List (String × Value)) :
    normalizeIntended (Value.map entries) = Value.map entries := rfl

/-- The intended normalizer (spec model): every non-mapping value tree —
string, number, boolean, null, or sequence (the empty one included) —
is wrapped as exactly the one-entry mapping under the key `data`. -/
theorem normalizeIntended_wrap (s : String) (n : Int) (b : Bool)
    (elems : List Value) :
    normalizeIntended (Value.str s) = Value.map [("data", Value.str s)] ∧
    normalizeIntended (Value.num n) = Value.map [("data", Value.num n)] ∧
    normalizeIntended (Value.bool b) = Value.map [("data", Value.bool b)] ∧
    normalizeIntended Value.null = Value.map [("data", Value.null)] ∧
    normalizeIntended (Value.seq elems) = Value.map [("data", Value.seq elems)] :=
  ⟨rfl, rfl, rfl, rfl, rfl⟩

/-- The intended normalizer (spec model) is total and always yields a
mapping. -/
theorem normalizeIntended_total (v : Value) :
    (normalizeIntended v).isMapping = true := by
  cases v <;> rfl

/-- Claim C3: merging with an absent or empty override sequence returns
the base context unchanged; overrides are applied in order (appending
one more override post-composes one dict assignment), each assignment
overwrites any existing key of the same name and leaves other keys
alone, and duplicate override keys collapse to the last write. -/
theorem merge_spec :
    (∀ base : List (String × Value), merge base none = base) ∧
    (∀ base : List (String × Value), merge base (some []) = base) ∧
    (∀ (base : List (String × Value)) (ds : List (String × String))
       (k v : String),
       merge base (some (ds ++ [(k, v)])) =
         dictSet (merge base (some ds)) k (Value.str v)) ∧
    (∀ (base : List (String × Value)) (k : String) (v : Value) (x : String),
       dictGet (dictSet base k v) x = if x = k then some v else dictGet base x) ∧
    (∀ (base : List (String × Value)) (k v1 v2 : String),
       merge base (some [(k, v1), (k, v2)]) =
         dictSet base k (Value.str v2)) := by
  refine ⟨fun base => rfl, fun base => rfl, ?_, ?_, ?_⟩
  · intro base ds k v
    simp [merge, updatePairs]
  · intro base k v x
    exact dictGet_dictSet base k v x
  · intro base k v1 v2
    show dictSet (dictSet base k (Value.str v1)) k (Value.str v2) = _
    exact dictSet_dictSet base k (Value.str v1) (Value.str v2)

lemma dictGet_eq_none {α : Type} (l : List (String × α)) (x : String)
    (h : x ∉ l.map Prod.fst) : dictGet l x = none := by
  induction l with
  | nil => rfl
  | cons p rest ih =>
    obtain ⟨k, v⟩ := p
    simp only [List.map_cons, List.mem_cons, not_or] at h
    simp [dictGet, h.1, ih h.2]

lemma updatePairs_dictGet {α : Type} (ps : List (String × α))
    (d : List (String × α)) (hnd : (ps.map Prod.fst).Nodup) (x : String) :
    dictGet (updatePairs d ps) x = firstSome (dictGet ps x) (dictGet d x) := by
  induction ps generalizing d with
  | nil => rfl
  | cons p rest ih =>
    obtain ⟨k, v⟩ := p
    simp only [List.map_cons, List.nodup_cons] at hnd
    obtain ⟨hk, hrest⟩ := hnd
    have step : updatePairs d ((k, v) :: rest) = updatePairs (dictSet d k v) rest := rfl
    rw [step, ih (dictSet d k v) hrest]
    by_cases hx : x = k
    · subst hx
      have hnone : dictGet rest x = none := dictGet_eq_none rest x hk
      simp [dictGet, firstSome, hnone, dictGet_dictSet]
    · simp only [dictGet, if_neg hx]
      cases dictGet rest x with
      | some w => rfl
      | none => simp [firstSome, dictGet_dictSet, hx]

lemma dictGet_map_pair {α β : Type} (f : String → α → β)
    (l : List (String × α)) (s : String) (a : α)
    (hnd : (l.map Prod.fst).Nodup) (hmem : (s, a) ∈ l) :
    dictGet (l.map (fun p => (p.1, f p.1 p.2))) s = some (f s a) := by
  induction l with
  | nil => cases hmem
  | cons p rest ih =>
    obtain ⟨k, b⟩ := p
    simp only [List.map_cons, List.nodup_cons] at hnd
    obtain ⟨hk, hrest⟩ := hnd
    rcases List.mem_cons.mp hmem with heq | hmem'
    · cases heq
      simp [dictGet]
    · have hs : s ≠ k := by
        intro hsk
        subst hsk
        exact hk (List.mem_map_of_mem Prod.fst hmem')
      simp [dictGet, hs, ih hrest hmem']

/-- Claim C8: the ini-like loader maps every section name to that
section's own keys overlaid on the shared defaults: looked up in the
result, a section yields exactly the defaults updated with its own
entries; a key present in the section wins, a key absent from the
section falls through to the defaults — in particular a section lacking
`x` while the default section defines `x = 5` carries `x ↦ "5"`. -/
theorem load_data_ini_spec (cp : IniData) (s : String)
    (own : List (String × String))
    (hsec : (cp.sections.map Prod.fst).Nodup)
    (hown : (own.map Prod.fst).Nodup)
    (hmem : (s, own) ∈ cp.sections) :
    dictGet (load_data_ini cp) s = some (updatePairs cp.defaults own) ∧
    (∀ x : String, dictGet (updatePairs cp.defaults own) x =
       firstSome (dictGet own x) (dictGet cp.defaults x)) ∧
    (∀ x : String, dictGet own x = none → dictGet cp.defaults x = some "5" →
       dictGet (updatePairs cp.defaults own) x = some "5") := by
  refine ⟨?_, ?_, ?_⟩
  · exact dictGet_map_pair (fun _ v => updatePairs cp.defaults v)
      cp.sections s own hsec hmem
  · intro x
    exact updatePairs_dictGet own cp.defaults hown x
  · intro x hnone hdef
    rw [updatePairs_dictGet own cp.defaults hown x, hnone]
    simpa [firstSome] using hdef

/-- Witness for C8: defaults defining `x = 5` and one section `sec`
owning only `y = 1`: the result maps `sec` to the overlay, and that
overlay carries `x ↦ "5"`. -/
theorem load_data_ini_spec_witness :
    dictGet (load_data_ini ⟨[("x", "5")], [("sec", [("y", "1")])]⟩) "sec" =
      some [("x", "5"), ("y", "1")] ∧
    dictGet (updatePairs [("x", "5")] [("y", "1")]) "x" = some "5" := by
  have h := load_data_ini_spec ⟨[("x", "5")], [("sec", [("y", "1")])]⟩ "sec"
    [("y", "1")] (by decide) (by decide) (by decide)
  exact ⟨h.1, h.2.2 "x" rfl rfl⟩

/-- Claim C7, against the committed code: `load_data_dsv` never parses
anything — on the documented input `a,b\n1,2\n3,4` under the comma
dialect it fails with the `NameError` on the unimported `csv` module,
with headers on and off alike, instead of yielding the documented rows
(see `dsvParseSpec_example` for the intended results). -/
theorem load_data_dsv_crashes :
    load_data_dsv "a,b\n1,2\n3,4" "csv" true =
      .error (JinjaError.nameError "csv") ∧
    load_data_dsv "a,b\n1,2\n3,4" "csv" false =
      .error (JinjaError.nameError "csv") :=
  ⟨rfl, rfl⟩

/-- The intended tabular behavior (spec model): under the comma dialect
with headers, `a,b\n1,2\n3,4` yields the two field-name-to-value
mappings; without headers, the three row sequences. -/
theorem dsvParseSpec_example :
    dsvParseSpec ',' true "a,b\n1,2\n3,4" =
      Value.seq [Value.map [("a", Value.str "1"), ("b", Value.str "2")],
                 Value.map [("a", Value.str "3"), ("b", Value.str "4")]] ∧
    dsvParseSpec ',' false "a,b\n1,2\n3,4" =
      Value.seq [Value.seq [Value.str "a", Value.str "b"],
                 Value.seq [Value.str "1", Value.str "2"],
                 Value.seq [Value.str "3", Value.str "4"]] :=
  ⟨rfl, rfl⟩

/-- Claim C9: no partial output.  Every invocation either writes nothing
and terminates with an error (data loading or rendering failed), or the
rendering step completed fully and the single write is exactly the
complete rendered string. -/
theorem main_no_partial_output
    (render : TemplateSource → Value → Except JinjaError String)
    (parseExt : Fmt → String → Except JinjaError Value)
    (readSrc : String → String) (stdin : String)
    (templateArg dataArg fmtArg : Option String)
    (defines : Option (List (String × String))) :
    (∃ e : JinjaError,
       main render parseExt readSrc stdin templateArg dataArg fmtArg defines =
         ([], some e)) ∨
    (∃ data rendered,
       load_data parseExt readSrc dataArg fmtArg defines = .ok data ∧
       render (loadTemplate templateArg stdin) data = .ok rendered ∧
       main render parseExt readSrc stdin templateArg dataArg fmtArg defines =
         ([rendered], none)) := by
  cases hload : load_data parseExt readSrc dataArg fmtArg defines with
  | error e => exact Or.inl ⟨e, by simp [main, hload]⟩
  | ok data =>
    cases hrender : render (loadTemplate templateArg stdin) data with
    | error e => exact Or.inl ⟨e, by simp [main, hload, hrender]⟩
    | ok rendered =>
      exact Or.inr ⟨data, rendered, rfl, hrender, by simp [main, hload, hrender]⟩

/-- Claim C10: omitting the positional template argument behaves
identically to passing the `-` sentinel, and both read the template
wholly from standard input. -/
theorem loadTemplate_omitted_eq_dash (stdin : String) :
    loadTemplate none stdin = loadTemplate (some "-") stdin ∧
    loadTemplate none stdin = TemplateSource.stdinText stdin :=
  ⟨rfl, rfl⟩

end JinjaCli
